import Mathlib

/-!
Shallow embedding of HashGen (src/HashGen.py): the Snippet Store
(`SnippetManager`), the Signing Engine (`CryptoEngine.execute_snippet`) and
the reference signing algorithm (the default snippet's `generate` function),
together with theorems settling the specification claims.

Python library modules that the program calls but that are not part of the
repository are abstracted: `hmac`/`hashlib` appear as an explicit function
argument `hm : String → String → String` (secret key, message ↦ lower-case
hex digest), `traceback.format_exc()` as a function argument
`fmt : String → String` (exception message ↦ formatted trace text), and
`json.dump`/`json.load` as the identity on the parsed document (the store's
file is modelled as holding the parsed collection).
-/

namespace HashGen

/-- A Python runtime value, as far as the signing engine observes it:
strings, integers and `None`. `pyStr` is Python's `str()` on these. -/
inductive PyVal where
  | vStr (s : String)
  | vInt (n : Int)
  | vNone
  deriving DecidableEq, Repr

/-- Python `str()` on the modelled values. -/
def PyVal.pyStr : PyVal → String
  | .vStr s => s
  | .vInt n => toString n
  | .vNone => "None"

/-- A JSON payload: an insertion-ordered dictionary from string keys to
values (keys are unique in an actual Python dict; the association list
keeps the first binding authoritative, as `dict.get` does). -/
abbrev Payload := List (String × PyVal)

/-- `payload.get(k)`: first binding for `k`, or `none` when absent. -/
def pget (payload : Payload) (k : String) : Option PyVal :=
  (payload.find? (fun kv => kv.1 == k)).map (fun kv => kv.2)

/-- Line 92 of src/HashGen.py:
`[k for k in payload.keys() if k != 'hash' and k != '__keys_order__']`. -/
def defaultKeysOf (payload : Payload) : List String :=
  (payload.map (fun kv => kv.1)).filter (fun k => k != "hash" && k != "__keys_order__")

/-- Lines 86-92 of src/HashGen.py: `if key_order:` is a Python truthiness
test, so `None` and the empty list both select the default derivation. -/
def keys_to_sign (payload : Payload) (key_order : Option (List String)) : List String :=
  match key_order with
  | some ko => if ko.isEmpty then defaultKeysOf payload else ko
  | none => defaultKeysOf payload

/-- Lines 95-98 of src/HashGen.py: `val = payload.get(k)`,
`if val is None: val = ""`, then `str(val)`. A missing key and a `None`
value both contribute the empty string. -/
def valString (payload : Payload) (k : String) : String :=
  match pget payload k with
  | none => ""
  | some PyVal.vNone => ""
  | some v => v.pyStr

/-- The default snippet's `generate` (lines 72-110 of src/HashGen.py),
parameterised by the HMAC-SHA256 hex-digest primitive `hm` (Python's
`hmac.new(key, message, hashlib.sha256).hexdigest()`), which is library
code outside the repository. Python's `passcode[-16:]` and
`passcode[:-16]` are `takeRight 16` / `dropRight 16` (length ≥ 16 is
checked first). The raised `ValueError` is the `Except.error` case. -/
def generate (hm : String → String → String) (payload : Payload)
    (passcode api_key : String) (key_order : Option (List String)) :
    Except String String :=
  if passcode.length < 16 then
    Except.error "PassCode must be at least 16 characters long."
  else
    let iv := passcode.takeRight 16
    let key := passcode.dropRight 16
    let concat0 := if api_key == "" then "" else api_key
    let ks := keys_to_sign payload key_order
    let concatStr := ks.foldl (fun acc k => acc ++ valString payload k) concat0
    let message := iv ++ concatStr
    Except.ok (hm key message)

/-- Concatenation of the string forms of the payload values over a key
sequence, written spec-side as a join of a map. -/
def concatValues (payload : Payload) (ks : List String) : String :=
  String.join (ks.map (valString payload))

/-- Substring containment, Python's `needle in haystack` on strings. -/
def strContains (hay needle : String) : Bool :=
  decide (needle.data <:+: hay.data)

/-- Outcome of calling a snippet's `generate` function on given arguments:
a returned value, a raised `TypeError` (the only exception class the inner
handler at line 151 of src/HashGen.py catches), or any other raised
exception. Exceptions are modelled by their message (`str(e)`). -/
inductive CallOutcome where
  | ret (v : PyVal)
  | typeError (msg : String)
  | otherExc (msg : String)
  deriving DecidableEq, Repr

/-- A snippet's `generate` entry point, observed through the two ways the
engine can call it: with four arguments (payload, passcode, api_key,
key_order) or, on the fallback path, with three. A Python function
declared with only three parameters has `call4` raise a `TypeError`
before its body runs. -/
structure GenFunc where
  call4 : Payload → String → String → Option (List String) → CallOutcome
  call3 : Payload → String → String → CallOutcome

/-- What `exec(snippet_code, ...)` leaves behind: the exec itself raised,
it completed but defined no `generate` in the local scope, or it defined a
`generate` entry point. -/
inductive SnippetModel where
  | execRaises (msg : String)
  | noGenerate
  | withGenerate (f : GenFunc)

/-- The body of the `try` block of `CryptoEngine.execute_snippet`
(lines 139-155 of src/HashGen.py), with a raised exception that reaches
the outer handler modelled as `Except.error` carrying its message:
run the snippet, require `generate`, call it with four arguments, and on a
`TypeError` whose message looks argument-related retry once with three. -/
def tryBody (s : SnippetModel) (payload : Payload) (passcode api_key : String)
    (key_order : Option (List String)) : Except String PyVal :=
  match s with
  | .execRaises m => Except.error m
  | .noGenerate => Except.error "Snippet must define a \x27generate\x27 function."
  | .withGenerate f =>
    match f.call4 payload passcode api_key key_order with
    | .ret v => Except.ok v
    | .typeError m =>
      if strContains m "positional argument" || strContains m "argument" then
        match f.call3 payload passcode api_key with
        | .ret v => Except.ok v
        | .typeError m2 => Except.error m2
        | .otherExc m2 => Except.error m2
      else Except.error m
    | .otherExc m => Except.error m

/-- `CryptoEngine.execute_snippet` (lines 119-163 of src/HashGen.py): the
`try` body wrapped in the catch-all `except` that turns any exception into
the returned string `f"Error: {str(e)}\n{traceback.format_exc()}"`.
`fmt` abstracts `traceback.format_exc()` (message ↦ trace text); the
second, identical `except` block at lines 161-163 is unreachable. -/
def execute_snippet (s : SnippetModel) (payload : Payload)
    (passcode api_key : String) (key_order : Option (List String))
    (fmt : String → String) : PyVal :=
  match tryBody s payload passcode api_key key_order with
  | Except.ok v => v
  | Except.error m => PyVal.vStr ("Error: " ++ m ++ "\n" ++ fmt m)

/-- A snippet whose `generate` is declared with only the three parameters
(payload, passcode, api_key): a four-argument call raises Python's arity
`TypeError` (message `amsg`) before the body runs; a three-argument call
runs the body. -/
def threeParamSnippet (body : Payload → String → String → CallOutcome)
    (amsg : String) : SnippetModel :=
  SnippetModel.withGenerate ⟨fun _ _ _ _ => CallOutcome.typeError amsg, body⟩

/-- The equivalent snippet whose `generate` accepts a fourth `key_order`
parameter but ignores it, running the same body. -/
def fourParamIgnoringKeyOrder (body : Payload → String → String → CallOutcome) :
    SnippetModel :=
  SnippetModel.withGenerate ⟨fun p pc ak _ => body p pc ak, body⟩

/-- The seeded default snippet as the engine sees it: its `generate` runs
the reference algorithm; the `ValueError` it raises for a short passcode
is not a `TypeError`, and calling it with three arguments leaves
`key_order` at its declared default `None`. -/
def defaultSnippetModel (hm : String → String → String) : SnippetModel :=
  SnippetModel.withGenerate
    ⟨fun p pc ak ko =>
      match generate hm p pc ak ko with
      | Except.ok d => CallOutcome.ret (PyVal.vStr d)
      | Except.error m => CallOutcome.otherExc m,
     fun p pc ak =>
      match generate hm p pc ak none with
      | Except.ok d => CallOutcome.ret (PyVal.vStr d)
      | Except.error m => CallOutcome.otherExc m⟩

/-- A stored snippet: `code` and `description`, keyed by name. -/
structure Snippet where
  code : String
  description : String
  deriving DecidableEq, Repr

/-- The in-memory collection `self.snippets`: an insertion-ordered
dictionary from snippet name to entry. -/
abbrev StoreData := List (String × Snippet)

/-- Python dict assignment `self.snippets[name] = v`: replace in place if
the key exists, else append. -/
def dictInsert : StoreData → String → Snippet → StoreData
  | [], k, v => [(k, v)]
  | kv :: rest, k, v =>
    if kv.1 == k then (k, v) :: rest else kv :: dictInsert rest k v

/-- `SnippetManager.get_snippet` (line 51): `self.snippets.get(name)`. -/
def get_snippet (st : StoreData) (name : String) : Option Snippet :=
  (st.find? (fun kv => kv.1 == name)).map (fun kv => kv.2)

/-- `SnippetManager.get_all_names` (line 54): `list(self.snippets.keys())`. -/
def get_all_names (st : StoreData) : List String :=
  st.map (fun kv => kv.1)

/-- The default snippet's source text, exactly the `default_code.strip()`
stored by `create_default_snippets` (lines 71-111 of src/HashGen.py). -/
def default_snippet_code : String :=
  "def generate(payload, passcode, api_key=\"\", key_order=None):\n    import hmac\n    import hashlib\n\n    # 1. Parse Passcode\n    if len(passcode) < 16:\n        raise ValueError(\"PassCode must be at least 16 characters long.\")\n    iv = passcode[-16:]\n    key = passcode[:-16]\n\n    # 2. Concat API Key\n    concat_str = api_key if api_key else \"\"\n\n    # 3. Determine Keys to Sign\n    keys_to_sign = []\n    if key_order:\n        # If explicit order provided, use it\n        keys_to_sign = key_order\n    else:\n        # Default: all keys except \x27hash\x27 and special meta keys\n        keys_to_sign = [k for k in payload.keys() if k != \x27hash\x27 and k != \x27__keys_order__\x27]\n\n    # 4. Concat Payload Values\n    for k in keys_to_sign:\n        val = payload.get(k)\n        if val is None: val = \"\"\n        concat_str += str(val)\n\n    # 5. Create Message\n    message = iv + concat_str\n\n    # 6. Sign\n    signature = hmac.new(\n        key.encode(\x27utf-8\x27), \n        message.encode(\x27utf-8\x27), \n        hashlib.sha256\n    ).hexdigest()\n    \n    return signature"

/-- `SnippetManager.save_snippets` (lines 42-49): serialize the whole
collection to the backing file and return `True`. `json.dump` on a
string-valued document is modelled as storing the parsed document itself;
the I/O-failure branch (log and return `False`) is outside this model. -/
def save_snippets (st : StoreData) : Option StoreData × Bool :=
  (some st, true)

/-- `SnippetManager.create_default_snippets` (lines 69-116): add the
seeded `"ABA HMAC SHA256"` entry to the collection and persist. -/
def create_default_snippets (st : StoreData) : StoreData × Option StoreData :=
  let st1 := dictInsert st "ABA HMAC SHA256"
    ⟨default_snippet_code, "Original ABA HMAC-SHA256 Implementation"⟩
  (st1, (save_snippets st1).1)

/-- `SnippetManager.load_snippets` (lines 32-40): when the backing file is
absent, seed the defaults first; then read the file back into
`self.snippets` (`json.load` modelled as reading the stored document; the
parse-failure branch resetting to `{}` cannot fire on a file this model's
`save_snippets` wrote). Returns the new collection and file state. -/
def load_snippets (st : StoreData) (file : Option StoreData) :
    StoreData × Option StoreData :=
  match file with
  | none =>
    let seeded := create_default_snippets st
    ((seeded.2).getD [], seeded.2)
  | some doc => (doc, some doc)

/-- `SnippetManager.update_snippet` (lines 57-62): overwrite the entry for
`name` and persist immediately. Returns the new collection and file state. -/
def update_snippet (st : StoreData) (name code description : String) :
    StoreData × Option StoreData :=
  let st1 := dictInsert st name ⟨code, description⟩
  (st1, (save_snippets st1).1)

/-- `SnippetManager.delete_snippet` (lines 64-67): delete if present,
then persist; a no-op on an absent name. -/
def delete_snippet (st : StoreData) (file : Option StoreData) (name : String) :
    StoreData × Option StoreData :=
  if st.any (fun kv => kv.1 == name) then
    let st1 := st.filter (fun kv => !(kv.1 == name))
    (st1, (save_snippets st1).1)
  else (st, file)

/-- Folding string append from an accumulator splits off the accumulator. -/
theorem foldl_string_append_acc (l : List String) (acc : String) :
    l.foldl (fun r s => r ++ s) acc = acc ++ l.foldl (fun r s => r ++ s) "" := by
  induction l generalizing acc with
  | nil => simp
  | cons x xs ih =>
    simp only [List.foldl_cons]
    rw [ih (acc ++ x), ih ("" ++ x)]
    simp [String.append_assoc]

/-- `String.join` peels its head element. -/
theorem string_join_cons (x : String) (xs : List String) :
    String.join (x :: xs) = x ++ String.join xs := by
  simp only [String.join, List.foldl_cons]
  rw [foldl_string_append_acc xs ("" ++ x)]
  simp

/-- The concatenation loop of the reference algorithm, started from an
accumulator, is the accumulator followed by the join of the mapped list. -/
theorem foldl_append_eq_join (g : String → String) (l : List String) (acc : String) :
    l.foldl (fun a k => a ++ g k) acc = acc ++ String.join (l.map g) := by
  induction l generalizing acc with
  | nil => simp [String.join]
  | cons x xs ih =>
    simp only [List.foldl_cons, List.map_cons, string_join_cons, ih, String.append_assoc]

/-- Python's `s if s else ""` on a string is the string itself. -/
theorem if_empty_eq (ak : String) : (if ak == "" then "" else ak) = ak := by
  cases hak : ak == ""
  · rfl
  · exact (eq_of_beq hak).symm

/-- An absent `key_order` resolves to the default derivation. -/
theorem keys_to_sign_none (p : Payload) : keys_to_sign p none = defaultKeysOf p := rfl

/-- A present `key_order` resolves through the truthiness test. -/
theorem keys_to_sign_some (p : Payload) (l : List String) :
    keys_to_sign p (some l) = if l.isEmpty then defaultKeysOf p else l := rfl

/-- Passing the default-derived order explicitly resolves to the same
order as omitting `key_order` (also when that order is empty, since the
empty list falls back to the derivation, which then re-yields it). -/
theorem keys_to_sign_some_default (p : Payload) :
    keys_to_sign p (some (defaultKeysOf p)) = keys_to_sign p none := by
  rw [keys_to_sign_some, keys_to_sign_none]
  cases hd : (defaultKeysOf p).isEmpty
  · rw [if_neg (by simp [hd])]
  · rw [List.isEmpty_iff] at hd
    rw [if_pos (by simp [hd]), hd]

/-- The digest depends on `key_order` only through the resolved order. -/
theorem generate_keys_congr (hm : String → String → String) (p : Payload)
    (pc ak : String) (ko1 ko2 : Option (List String))
    (h : keys_to_sign p ko1 = keys_to_sign p ko2) :
    generate hm p pc ak ko1 = generate hm p pc ak ko2 := by
  unfold generate
  rw [h]

/-- Shape of a successful run of the reference algorithm: the digest is
the abstract HMAC primitive applied to the key/iv split of the passcode
and the message `iv ++ apiKey ++ concatenated field values`. -/
theorem generate_ok_shape (hm : String → String → String) (p : Payload)
    (pc ak : String) (ko : Option (List String)) (h : 16 ≤ pc.length) :
    generate hm p pc ak ko
      = Except.ok (hm (pc.dropRight 16)
          (pc.takeRight 16 ++ (ak ++ concatValues p (keys_to_sign p ko)))) := by
  unfold generate
  rw [if_neg (by omega)]
  simp only [concatValues]
  rw [foldl_append_eq_join, if_empty_eq]

/-- A substring of a longer needle found in a haystack is itself found. -/
theorem strContains_mono (hay n1 n2 : String) (h12 : n1.data <:+: n2.data)
    (h : strContains hay n2 = true) : strContains hay n1 = true := by
  simp only [strContains, decide_eq_true_eq] at *
  exact h12.trans h

/-- Looking up the key just written by a dict assignment yields the
written entry. -/
theorem get_dictInsert (st : StoreData) (n : String) (v : Snippet) :
    get_snippet (dictInsert st n v) n = some v := by
  induction st with
  | nil => simp [dictInsert, get_snippet]
  | cons kv rest ih =>
    cases hk : kv.1 == n
    · simpa [dictInsert, get_snippet, hk] using ih
    · simp [dictInsert, get_snippet, hk]

/-- C1: for every payload, apiKey, keyOrder and passcode of length ≥ 16,
the reference algorithm returns the HMAC-SHA256 hex digest (the abstract
primitive `hm`) with key = all of the passcode but its last 16 characters,
over the message: last 16 characters (iv), then apiKey, then the string
form of each payload value in the resolved order; and on the spec's
example the message is iv ++ "user" ++ "20260101010101". -/
theorem c1_reference_digest (hm : String → String → String) (p : Payload)
    (pc ak : String) (ko : Option (List String)) (h : 16 ≤ pc.length) :
    generate hm p pc ak ko
      = Except.ok (hm (pc.dropRight 16)
          (pc.takeRight 16 ++ (ak ++ concatValues p (keys_to_sign p ko))))
    ∧ generate hm
        [("username", PyVal.vStr "user"), ("request_time", PyVal.vStr "20260101010101")]
        "mysecretkey12345678901234567890" "" none
      = Except.ok (hm "mysecretkey1234"
          ("5678901234567890" ++ "user" ++ "20260101010101")) :=
  ⟨generate_ok_shape hm p pc ak ko h, rfl⟩

/-- C1 witness at the spec's example scenario. -/
theorem c1_reference_digest_witness :
    16 ≤ ("mysecretkey12345678901234567890" : String).length ∧
    generate (fun k m => k ++ "|" ++ m)
        [("username", PyVal.vStr "user"), ("request_time", PyVal.vStr "20260101010101")]
        "mysecretkey12345678901234567890" "" none
      = Except.ok ((fun k m => k ++ "|" ++ m) "mysecretkey1234"
          ("5678901234567890" ++ "user" ++ "20260101010101")) :=
  ⟨by decide,
   (c1_reference_digest (fun k m => k ++ "|" ++ m)
     [("username", PyVal.vStr "user"), ("request_time", PyVal.vStr "20260101010101")]
     "mysecretkey12345678901234567890" "" none (by decide)).2⟩

/-- C2: for every passcode of length < 16 and every payload, apiKey and
keyOrder, the reference algorithm fails with the InvalidPasscode error
("must be at least 16 characters"), and the outcome is the same for every
hash primitive, so no HMAC computation determines it. -/
theorem c2_invalid_passcode (p : Payload) (pc ak : String)
    (ko : Option (List String)) (h : pc.length < 16) :
    ∀ hm : String → String → String,
      generate hm p pc ak ko
        = Except.error "PassCode must be at least 16 characters long." := by
  intro hm
  unfold generate
  rw [if_pos h]

/-- C2 witness on a 5-character passcode. -/
theorem c2_invalid_passcode_witness :
    ("short" : String).length < 16 ∧
    generate (fun k m => k ++ m) [] "short" "" none
      = Except.error "PassCode must be at least 16 characters long." :=
  ⟨by decide, c2_invalid_passcode [] "short" "" none (by decide) (fun k m => k ++ m)⟩

/-- C3: omitting keyOrder yields the same digest as explicitly passing
the default-derived order: all payload keys in iteration order except
the key "hash" and the internal ordering-metadata key. -/
theorem c3_default_order (hm : String → String → String) (p : Payload)
    (pc ak : String) (_h : 16 ≤ pc.length) :
    generate hm p pc ak none
      = generate hm p pc ak
          (some ((p.map (fun kv => kv.1)).filter
            (fun k => k != "hash" && k != "__keys_order__"))) :=
  (generate_keys_congr hm p pc ak _ _ (keys_to_sign_some_default p)).symm

/-- C3 witness on a payload containing a "hash" key. -/
theorem c3_default_order_witness :
    16 ≤ ("0123456789abcdef" : String).length ∧
    generate (fun k m => k ++ m)
        [("username", PyVal.vStr "user"), ("hash", PyVal.vStr "old")]
        "0123456789abcdef" "ak" none
      = generate (fun k m => k ++ m)
          [("username", PyVal.vStr "user"), ("hash", PyVal.vStr "old")]
          "0123456789abcdef" "ak"
          (some (([("username", PyVal.vStr "user"), ("hash", PyVal.vStr "old")].map
              (fun kv => kv.1)).filter
            (fun k => k != "hash" && k != "__keys_order__"))) :=
  ⟨by decide,
   c3_default_order (fun k m => k ++ m)
     [("username", PyVal.vStr "user"), ("hash", PyVal.vStr "old")]
     "0123456789abcdef" "ak" (by decide)⟩

/-- C4: a snippet whose generate has only 3 parameters (its 4-argument
call raises an arity TypeError whose message mentions "argument") is
executed via the one-shot 3-argument fallback and gives the same result
as the equivalent 4-parameter snippet that ignores keyOrder; when the
body returns a value the fallback returns it; and a TypeError whose
message is not argument-related takes no fallback but becomes the error
string. -/
theorem c4_fallback_equiv (body : Payload → String → String → CallOutcome)
    (amsg : String) (p : Payload) (pc ak : String) (ko : Option (List String))
    (fmt : String → String) (hamsg : strContains amsg "argument" = true) :
    execute_snippet (threeParamSnippet body amsg) p pc ak ko fmt
      = execute_snippet (fourParamIgnoringKeyOrder body) p pc ak ko fmt
    ∧ (∀ v, body p pc ak = CallOutcome.ret v →
        execute_snippet (threeParamSnippet body amsg) p pc ak ko fmt = v)
    ∧ (∀ m, strContains m "argument" = false →
        execute_snippet
            (SnippetModel.withGenerate
              ⟨fun _ _ _ _ => CallOutcome.typeError m, body⟩) p pc ak ko fmt
          = PyVal.vStr ("Error: " ++ m ++ "\n" ++ fmt m)) := by
  refine ⟨?_, ?_, ?_⟩
  · simp only [execute_snippet, tryBody, threeParamSnippet, fourParamIgnoringKeyOrder,
      hamsg, Bool.or_true, if_true]
    cases hb : body p pc ak <;> simp [hb]
  · intro v hv
    simp [execute_snippet, tryBody, threeParamSnippet, hamsg, hv]
  · intro m hm
    have hpa : strContains m "positional argument" = false := by
      cases hh : strContains m "positional argument"
      · rfl
      · exact absurd (strContains_mono m "argument" "positional argument" (by decide) hh)
          (by simp [hm])
    simp [execute_snippet, tryBody, hpa, hm]

/-- C4 witness: a 3-parameter snippet whose body returns "sig", with the
actual Python arity message. -/
theorem c4_fallback_equiv_witness :
    strContains "generate() takes 3 positional arguments but 4 were given" "argument" = true ∧
    execute_snippet
        (threeParamSnippet (fun _ _ _ => CallOutcome.ret (PyVal.vStr "sig"))
          "generate() takes 3 positional arguments but 4 were given")
        [] "0123456789abcdef" "" none (fun t => t)
      = execute_snippet
          (fourParamIgnoringKeyOrder (fun _ _ _ => CallOutcome.ret (PyVal.vStr "sig")))
          [] "0123456789abcdef" "" none (fun t => t) :=
  ⟨by decide,
   (c4_fallback_equiv (fun _ _ _ => CallOutcome.ret (PyVal.vStr "sig"))
     "generate() takes 3 positional arguments but 4 were given"
     [] "0123456789abcdef" "" none (fun t => t) (by decide)).1⟩

/-- C5: a snippet defining no generate callable makes execute return the
ContractViolation-flavoured error string naming the missing entry point
("generate" occurs in it), as a returned value, for every invocation. -/
theorem c5_missing_generate (p : Payload) (pc ak : String)
    (ko : Option (List String)) (fmt : String → String) :
    execute_snippet SnippetModel.noGenerate p pc ak ko fmt
      = PyVal.vStr ("Error: " ++ "Snippet must define a \x27generate\x27 function." ++ "\n"
          ++ fmt "Snippet must define a \x27generate\x27 function.")
    ∧ strContains "Snippet must define a \x27generate\x27 function." "generate" = true :=
  ⟨rfl, by decide⟩

/-- C6: whenever the try-block of execute raises (any runtime failure in
the snippet, a missing entry point, or a second failure on the fallback
retry), execute returns the string "Error: " ++ message ++ newline ++
formatted trace instead of letting the exception escape. -/
theorem c6_no_escape (s : SnippetModel) (p : Payload) (pc ak : String)
    (ko : Option (List String)) (fmt : String → String) (m : String)
    (h : tryBody s p pc ak ko = Except.error m) :
    execute_snippet s p pc ak ko fmt
      = PyVal.vStr ("Error: " ++ m ++ "\n" ++ fmt m) := by
  unfold execute_snippet
  rw [h]

/-- C6 witness: the default snippet raising InvalidPasscode on a short
passcode is converted to the error string. -/
theorem c6_no_escape_witness :
    tryBody (defaultSnippetModel (fun _ _ => "")) [] "short" "" none
      = Except.error "PassCode must be at least 16 characters long." ∧
    execute_snippet (defaultSnippetModel (fun _ _ => "")) [] "short" "" none
        (fun t => "TRACE " ++ t)
      = PyVal.vStr ("Error: " ++ "PassCode must be at least 16 characters long." ++ "\n"
          ++ (fun t => "TRACE " ++ t) "PassCode must be at least 16 characters long.") :=
  ⟨rfl, c6_no_escape (defaultSnippetModel (fun _ _ => "")) [] "short" "" none
    (fun t => "TRACE " ++ t) "PassCode must be at least 16 characters long." rfl⟩

/-- C7 counterexample: the claim fails on the empty keyOrder sequence,
which is non-absent but resolves to the default derivation rather than
verbatim: on payload {"a": "x"} it resolves to ["a"], not []. -/
theorem c7_counterexample :
    keys_to_sign [("a", PyVal.vStr "x")] (some []) = ["a"]
    ∧ ¬ (keys_to_sign [("a", PyVal.vStr "x")] (some []) = ([] : List String)) := by
  exact ⟨by decide, by decide⟩

/-- C7 (amended): for every non-absent, non-empty keyOrder sequence, the
resolved order is exactly that sequence verbatim (duplicates and unknown
keys included), and the run succeeds, unknown keys contributing the empty
string to the concatenation. -/
theorem c7_verbatim_order (hm : String → String → String) (p : Payload)
    (pc ak : String) (ko : List String) (hko : ko ≠ []) (h : 16 ≤ pc.length) :
    keys_to_sign p (some ko) = ko
    ∧ generate hm p pc ak (some ko)
      = Except.ok (hm (pc.dropRight 16)
          (pc.takeRight 16 ++ (ak ++ concatValues p ko))) := by
  have hkeys : keys_to_sign p (some ko) = ko := by
    rw [keys_to_sign_some, if_neg (by simpa [List.isEmpty_iff] using hko)]
  refine ⟨hkeys, ?_⟩
  rw [generate_ok_shape hm p pc ak (some ko) h, hkeys]

/-- C7 witness: a keyOrder with a duplicate and an unknown key. -/
theorem c7_verbatim_order_witness :
    (["a", "a", "zzz"] : List String) ≠ []
    ∧ 16 ≤ ("0123456789abcdef" : String).length
    ∧ generate (fun k m => k ++ "|" ++ m) [("a", PyVal.vStr "x")]
        "0123456789abcdef" "" (some ["a", "a", "zzz"])
      = Except.ok ((fun k m => k ++ "|" ++ m) ("0123456789abcdef".dropRight 16)
          ("0123456789abcdef".takeRight 16
            ++ ("" ++ concatValues [("a", PyVal.vStr "x")] ["a", "a", "zzz"]))) :=
  ⟨by decide, by decide,
   (c7_verbatim_order (fun k m => k ++ "|" ++ m) [("a", PyVal.vStr "x")]
     "0123456789abcdef" "" ["a", "a", "zzz"] (by decide) (by decide)).2⟩

/-- C8 counterexample: the claim fails because execute returns the entry
point's result unmodified: a generate returning the integer 5 makes
execute return the integer 5, not its string coercion "5". -/
theorem c8_counterexample :
    execute_snippet
        (SnippetModel.withGenerate
          ⟨fun _ _ _ _ => CallOutcome.ret (PyVal.vInt 5),
           fun _ _ _ => CallOutcome.ret (PyVal.vInt 5)⟩)
        [] "0123456789abcdef" "" none (fun t => t)
      = PyVal.vInt 5
    ∧ PyVal.vInt 5 ≠ PyVal.vStr (PyVal.pyStr (PyVal.vInt 5)) :=
  ⟨rfl, by decide⟩

/-- C8 (amended): for every snippet whose generate is successfully
invoked with the four arguments, execute returns the entry point's result
unmodified, with no string coercion (the UI caller applies str() before
display, outside the engine). -/
theorem c8_raw_result (f : GenFunc) (p : Payload) (pc ak : String)
    (ko : Option (List String)) (fmt : String → String) (v : PyVal)
    (h : f.call4 p pc ak ko = CallOutcome.ret v) :
    execute_snippet (SnippetModel.withGenerate f) p pc ak ko fmt = v := by
  simp [execute_snippet, tryBody, h]

/-- C8 witness: a generate returning the integer 7 comes back unmodified. -/
theorem c8_raw_result_witness :
    (GenFunc.mk (fun _ _ _ _ => CallOutcome.ret (PyVal.vInt 7))
        (fun _ _ _ => CallOutcome.ret (PyVal.vInt 7))).call4 [] "p" "" none
      = CallOutcome.ret (PyVal.vInt 7)
    ∧ execute_snippet
        (SnippetModel.withGenerate
          (GenFunc.mk (fun _ _ _ _ => CallOutcome.ret (PyVal.vInt 7))
            (fun _ _ _ => CallOutcome.ret (PyVal.vInt 7))))
        [] "p" "" none (fun t => t)
      = PyVal.vInt 7 :=
  ⟨rfl,
   c8_raw_result
     (GenFunc.mk (fun _ _ _ _ => CallOutcome.ret (PyVal.vInt 7))
       (fun _ _ _ => CallOutcome.ret (PyVal.vInt 7)))
     [] "p" "" none (fun t => t) (PyVal.vInt 7) rfl⟩

/-- C9: upsert(name, code, description) followed by reloading the
collection from the persisted file yields, under get(name), a Snippet
whose code and description equal what was saved, for every prior
collection state, name, code and description (the empty one included). -/
theorem c9_store_roundtrip (st : StoreData) (name code description : String) :
    get_snippet
      (load_snippets (update_snippet st name code description).1
        (update_snippet st name code description).2).1 name
      = some ⟨code, description⟩ := by
  simp only [update_snippet, save_snippets, load_snippets]
  exact get_dictInsert st name ⟨code, description⟩

/-- C10: a keyOrder bound to the empty sequence produces the same digest
as an absent keyOrder: the truthiness test treats the empty list as not
given and the default key-order derivation is used. -/
theorem c10_empty_keyorder (hm : String → String → String) (p : Payload)
    (pc ak : String) (_h : 16 ≤ pc.length) :
    generate hm p pc ak (some []) = generate hm p pc ak none :=
  generate_keys_congr hm p pc ak (some []) none rfl

/-- C10 witness on the spec's example payload. -/
theorem c10_empty_keyorder_witness :
    16 ≤ ("mysecretkey12345678901234567890" : String).length ∧
    generate (fun k m => k ++ m)
        [("username", PyVal.vStr "user"), ("request_time", PyVal.vStr "20260101010101")]
        "mysecretkey12345678901234567890" "" (some [])
      = generate (fun k m => k ++ m)
          [("username", PyVal.vStr "user"), ("request_time", PyVal.vStr "20260101010101")]
          "mysecretkey12345678901234567890" "" none :=
  ⟨by decide,
   c10_empty_keyorder (fun k m => k ++ m)
     [("username", PyVal.vStr "user"), ("request_time", PyVal.vStr "20260101010101")]
     "mysecretkey12345678901234567890" "" (by decide)⟩

end HashGen
